import Mathlib

/-!
# GenoInsight — Variant Scoring & Clinical ClinicalAnnot Pipeline: a verification development

A shallow embedding of the core pipeline of the GenoInsight repository:

* `src/backend/variant_parser.py`   — VCF record parsing, multi-allelic expansion, filtering
* `src/backend/ensemble_models.py`  — feature extraction, classification thresholds, prediction
* `src/backend/gnomad_data.py`      — population-frequency lookup table
* `src/backend/clinical_annotator.py` — clinical annotation, ACMG criteria, actionability,
  report aggregation

Modelling conventions:

* Python floats are modelled as exact rationals (`ℚ`); decimal literals of the source
  (`0.9`, `0.0001`, …) are taken at their decimal value.
* Python dictionaries are association lists in insertion order; `dict.get` with a default
  is explicit.  The INFO dictionary of a VCF record holds strings and bare flags
  (`InfoVal`); generic variant/prediction dictionaries hold `PyVal` values.
* Fallible Python operations (`int(...)`, `float(...)`, attribute errors on non-strings,
  `dict[...]` indexing, unhashable keys, ordering of non-numeric values) are modelled with
  `Option`/`Except`: a `none`/`.error` result models a raised exception.
* String helpers (`split`, `strip`, `startswith`, substring `in`) are reimplemented over
  character lists so that every definition evaluates inside the kernel.  `str.strip()` and
  numeric literals are modelled for ASCII input; Python's `float` additionally accepts
  forms such as `"inf"`/`"nan"`/underscores, which do not occur in the claims below.
-/

namespace GenoInsight

/-! ## String utilities (models of the Python `str` operations used by the source) -/

/-- Split a character list at every occurrence of `c` (model of `str.split(c)`). -/
def splitCharAux (c : Char) : List Char → List Char → List (List Char)
  | [], acc => [acc.reverse]
  | x :: xs, acc =>
      if x = c then acc.reverse :: splitCharAux c xs []
      else splitCharAux c xs (x :: acc)

/-- `pySplit c s` models Python `s.split(c)` for a one-character separator. -/
def pySplit (c : Char) (s : String) : List String :=
  (splitCharAux c s.data []).map String.mk

/-- `p` is a prefix of the second list. -/
def isPrefixL : List Char → List Char → Bool
  | [], _ => true
  | _ :: _, [] => false
  | p :: ps, x :: xs => p = x && isPrefixL ps xs

/-- Substring occurrence on character lists. -/
def containsL (pat : List Char) : List Char → Bool
  | [] => pat.isEmpty
  | x :: xs => isPrefixL pat (x :: xs) || containsL pat xs

/-- `strContains s pat` models Python `pat in s` on strings. -/
def strContains (s pat : String) : Bool :=
  containsL pat.data s.data

/-- Model of `str.strip()` (ASCII whitespace). -/
def pyStrip (s : String) : String :=
  String.mk ((s.data.dropWhile Char.isWhitespace).reverse.dropWhile Char.isWhitespace
    |>.reverse)

/-- Model of `s.startswith(c)` for a single character. -/
def pyStartsWith (c : Char) (s : String) : Bool :=
  match s.data with
  | [] => false
  | x :: _ => x = c

/-- Digit-string accumulation. -/
def digitsToNat : List Char → ℕ → ℕ
  | [], acc => acc
  | c :: cs, acc => digitsToNat cs (acc * 10 + (c.toNat - '0'.toNat))

/-- A nonempty all-digit string as a natural number (else `none`). -/
def decToNat? (s : String) : Option ℕ :=
  if s.data ≠ [] ∧ s.data.all Char.isDigit then some (digitsToNat s.data 0)
  else none

/-- Model of Python `int(s)`: optional surrounding whitespace, optional sign, digits. -/
def parsePyInt (s : String) : Option Int :=
  let t := pyStrip s
  if pyStartsWith '-' t then (decToNat? (String.mk t.data.tail)).map (fun n => -(n : Int))
  else if pyStartsWith '+' t then (decToNat? (String.mk t.data.tail)).map (fun n => (n : Int))
  else (decToNat? t).map (fun n => (n : Int))

/-- The decimal literal `n × 10⁻ᵈ` of the source, e.g. `dec 99 2` for `0.99`.
(`Rat.divInt` is used throughout instead of `/` so every rational in the model reduces
inside the kernel.) -/
def dec (n : ℤ) (d : ℕ) : ℚ := Rat.divInt n (10 ^ d)

/-- The exact value of a decimal float literal: sign, mantissa digits `n` with `flen`
digits after the point, exponent `ev` — that is, `± n × 10^(ev − flen)`. -/
def decValue (neg : Bool) (n : ℕ) (flen : ℕ) (ev : Int) : ℚ :=
  let m : Int := if neg then -(n : Int) else (n : Int)
  let e : Int := ev - (flen : Int)
  if 0 ≤ e then Rat.divInt (m * 10 ^ e.toNat) 1 else Rat.divInt m (10 ^ (-e).toNat)

/-- The mantissa of a float literal (`digits`, `digits.digits`, `.digits`, `digits.`)
as (digit value, number of fractional digits). -/
def parseMantissaParts (m : String) : Option (ℕ × ℕ) :=
  match pySplit '.' m with
  | [a] => (decToNat? a).map (fun n => (n, 0))
  | [a, b] => (decToNat? (a ++ b)).map (fun n => (n, b.length))
  | _ => none

/-- An optionally signed digit string as an integer (no surrounding whitespace). -/
def parseSignedDigits (s : String) : Option Int :=
  if pyStartsWith '-' s then (decToNat? (String.mk s.data.tail)).map (fun n => -(n : Int))
  else if pyStartsWith '+' s then (decToNat? (String.mk s.data.tail)).map (fun n => (n : Int))
  else (decToNat? s).map (fun n => (n : Int))

/-- Model of Python `float(s)` on decimal literals, with optional exponent part. -/
def parsePyFloat (s : String) : Option ℚ :=
  let t := pyStrip s
  let t := String.mk (t.data.map (fun c => if c = 'E' then 'e' else c))
  let (neg, body) :=
    if pyStartsWith '-' t then (true, String.mk t.data.tail)
    else if pyStartsWith '+' t then (false, String.mk t.data.tail)
    else (false, t)
  match pySplit 'e' body with
  | [m] => (parseMantissaParts m).map (fun p => decValue neg p.1 p.2 0)
  | [m, e] => do
      let p ← parseMantissaParts m
      let ev ← parseSignedDigits e
      pure (decValue neg p.1 p.2 ev)
  | _ => none

/-! ## Python value model -/

/-- A value of the parsed INFO dictionary: `KEY=VALUE` tokens store the value string,
bare tokens store Python `True` (`variant_parser.py`, `_parse_info_field`). -/
inductive InfoVal where
  | str (s : String)
  | flag
deriving DecidableEq, Repr

/-- A generic Python value as passed between the pipeline's dictionaries. -/
inductive PyVal where
  | str (s : String)
  | int (n : Int)
  | rat (q : ℚ)
  | bool (b : Bool)
  | pynone
  | info (d : List (String × InfoVal))
deriving DecidableEq, Repr

/-- Association-list update with Python `dict` semantics: an existing key keeps its
position, a new key is appended. -/
def setKey : List (String × α) → String → α → List (String × α)
  | [], k, v => [(k, v)]
  | (k', v') :: rest, k, v =>
      if k' = k then (k, v) :: rest else (k', v') :: setKey rest k v

/-- `dict.get(k)`: the value at the first (unique) occurrence of `k`. -/
def dGet (d : List (String × α)) (k : String) : Option α :=
  (d.find? (fun p => p.1 = k)).map (·.2)

/-- `dict.get(k, default)`. -/
def dGetD (d : List (String × α)) (k : String) (v : α) : α :=
  (dGet d k).getD v

/-- `k in dict`. -/
def hasKey (d : List (String × α)) (k : String) : Bool :=
  d.any (fun p => p.1 = k)

/-- Python truthiness of an INFO value (`True` is truthy, a string iff nonempty). -/
def infoTruthy : InfoVal → Bool
  | .str s => s ≠ ""
  | .flag => true

/-- Python `float(...)` applied to an INFO value (`float(True) = 1.0`). -/
def infoFloat : InfoVal → Option ℚ
  | .str s => parsePyFloat s
  | .flag => some 1

/-- Python `float(...)` applied to a generic value; `None` and dicts raise. -/
def pyFloat : PyVal → Option ℚ
  | .str s => parsePyFloat s
  | .int n => some (n : ℚ)
  | .rat q => some q
  | .bool b => some (if b then 1 else 0)
  | .pynone => none
  | .info _ => none

/-- Python `str(...)` of a value, as interpolated into f-strings.  Numeric formatting is
approximated by Lean's `toString`; the pipeline only interpolates gene names (strings). -/
def pyStrOf : PyVal → String
  | .str s => s
  | .int n => toString n
  | .rat q => toString q
  | .bool b => if b then "True" else "False"
  | .pynone => "None"
  | .info _ => "{...}"

/-- An INFO value as a generic Python value. -/
def pyOfInfo : InfoVal → PyVal
  | .str s => .str s
  | .flag => .bool true

/-! ## `variant_parser.py` — `VariantParser` -/

/-- One expanded variant record, exactly the dictionary built by
`VariantParser._parse_variant_line` (one per ALT allele).  `quality` is the raw QUAL
string; `gene`/`consequence`/`zygosity` may be bare-flag values, hence `InfoVal`. -/
structure VariantRecord where
  id : String
  chromosome : String
  position : Int
  reference : String
  alternate : String
  quality : String
  filter : String
  gene : InfoVal
  consequence : InfoVal
  cohort_allele_frequency : ℚ
  depth : Option InfoVal
  zygosity : InfoVal
  info : List (String × InfoVal)
deriving DecidableEq, Repr

/-- Rejoin the parts after the first `=` of a `KEY=VALUE` token (`item.split('=', 1)`). -/
def joinEq : List String → String
  | [] => ""
  | [x] => x
  | x :: xs => x ++ "=" ++ joinEq xs

/-- `VariantParser._parse_info_field`: `;`-delimited tokens, `KEY=VALUE` split at the
first `=`, bare tokens stored as `True`. -/
def parseInfoField (s : String) : List (String × InfoVal) :=
  (pySplit ';' s).foldl
    (fun d item =>
      match pySplit '=' item with
      | [] => d
      | [k] => setKey d k .flag
      | k :: v :: rest => setKey d k (.str (joinEq (v :: rest))))
    []

/-- `VariantParser._extract_from_annotation`: `None`/empty input gives Python `None`
(inner `none`), a nonempty string gives its first `|`-field, and a bare-flag value
raises `AttributeError` (outer `none`: `True.split` does not exist). -/
def extractFromAnnotBlob : Option InfoVal → Option (Option String)
  | Option.none => some Option.none
  | some (.str s) =>
      if s = "" then some Option.none
      else some (some ((pySplit '|' s).headD ""))
  | some .flag => Option.none

/-- The `a or b or 'Unknown'` tail of the gene/consequence resolution, over the CSQ and
ANN annotation blobs; the outer `none` models a raised exception. -/
def resolveFallback (d : List (String × InfoVal)) : Option InfoVal :=
  match extractFromAnnotBlob (dGet d "CSQ") with
  | Option.none => Option.none
  | some (some s) =>
      if s ≠ "" then some (.str s)
      else match extractFromAnnotBlob (dGet d "ANN") with
           | Option.none => Option.none
           | some (some t) => if t ≠ "" then some (.str t) else some (.str "Unknown")
           | some Option.none => some (.str "Unknown")
  | some Option.none =>
      match extractFromAnnotBlob (dGet d "ANN") with
      | Option.none => Option.none
      | some (some t) => if t ≠ "" then some (.str t) else some (.str "Unknown")
      | some Option.none => some (.str "Unknown")

/-- Gene/consequence resolution precedence (`_parse_variant_line`, lines 67–79): the
explicit INFO key first (if truthy), else the CSQ/ANN annotation blob, else `"Unknown"`. -/
def resolveField (d : List (String × InfoVal)) (key : String) : Option InfoVal :=
  match dGet d key with
  | some v => if infoTruthy v then some v else resolveFallback d
  | Option.none => resolveFallback d

/-- `VariantParser._parse_variant_line`: parse one tab-split VCF record into one
`VariantRecord` per comma-separated ALT allele.  `none` models a raised exception
(`int(POS)` failing, `float(AF)` failing, or a bare-flag CSQ/ANN annotation). -/
def parseVariantLine (fields : List String) : Option (List VariantRecord) := do
  let chrom := fields.getD 0 ""
  let pos ← parsePyInt (fields.getD 1 "")
  let ref := fields.getD 3 ""
  let alts := pySplit ',' (fields.getD 4 "")
  let qual := fields.getD 5 ""
  let filt := fields.getD 6 ""
  let infoD := parseInfoField (fields.getD 7 "")
  let gene ← resolveField infoD "GENE"
  let consequence ← resolveField infoD "CONSEQUENCE"
  let af ← infoFloat (dGetD infoD "AF" (.str "0.0"))
  pure (alts.map (fun alt =>
    { id := chrom ++ ":" ++ toString pos ++ ":" ++ ref ++ ">" ++ alt
      chromosome := chrom
      position := pos
      reference := ref
      alternate := alt
      quality := qual
      filter := filt
      gene := gene
      consequence := consequence
      cohort_allele_frequency := af
      depth := dGet infoD "DP"
      zygosity := dGetD infoD "GT" (.str "Unknown")
      info := infoD }))

/-- `VariantParser.parse_vcf` over the file's lines: strip each line, skip blank and
`#` lines and lines with fewer than 8 tab-separated fields, expand the rest.  `none`
models an exception raised while parsing some line (it aborts the whole parse). -/
def parseVcf : List String → Option (List VariantRecord)
  | [] => some []
  | l :: rest =>
      let line := pyStrip l
      if line = "" ∨ pyStartsWith '#' line then parseVcf rest
      else
        let fields := pySplit '\t' line
        if fields.length < 8 then parseVcf rest
        else do
          let parsed ← parseVariantLine fields
          let others ← parseVcf rest
          pure (parsed ++ others)

/-- `VariantParser.filter_variants`: quality filter (`'.'` fails, then
`float(quality) < min_quality` fails), FILTER column (`PASS`/`'.'` when
`pass_filter_only`), cohort allele-frequency cap.  `none` models the `ValueError`
raised by `float` on a quality string that is neither `'.'` nor numeric. -/
def filterVariants (minQuality maxAlleleFreq : ℚ) (passFilterOnly : Bool) :
    List VariantRecord → Option (List VariantRecord)
  | [] => some []
  | v :: rest =>
      if v.quality = "." then filterVariants minQuality maxAlleleFreq passFilterOnly rest
      else
        match parsePyFloat v.quality with
        | Option.none => Option.none
        | some q =>
            if q < minQuality then filterVariants minQuality maxAlleleFreq passFilterOnly rest
            else if passFilterOnly ∧ ¬(v.filter = "PASS" ∨ v.filter = ".") then
              filterVariants minQuality maxAlleleFreq passFilterOnly rest
            else if v.cohort_allele_frequency > maxAlleleFreq then
              filterVariants minQuality maxAlleleFreq passFilterOnly rest
            else (filterVariants minQuality maxAlleleFreq passFilterOnly rest).map (v :: ·)

/-- The dictionary literal of `_parse_variant_line` (lines 85–100), as consumed by the
other stages through `dict.get`. -/
def variantToDict (r : VariantRecord) : List (String × PyVal) :=
  [("id", .str r.id),
   ("chromosome", .str r.chromosome),
   ("position", .int r.position),
   ("reference", .str r.reference),
   ("alternate", .str r.alternate),
   ("quality", .str r.quality),
   ("filter", .str r.filter),
   ("gene", pyOfInfo r.gene),
   ("consequence", pyOfInfo r.consequence),
   ("cohort_allele_frequency", .rat r.cohort_allele_frequency),
   ("depth", match r.depth with | some v => pyOfInfo v | Option.none => .pynone),
   ("zygosity", pyOfInfo r.zygosity),
   ("info", .info r.info)]

/-! ## `ensemble_models.py` — `EnsembleVariantClassifier` -/

/-- `self.consequence_severity` (ACMG-inspired severity map). -/
def consequenceSeverity : List (String × ℚ) :=
  [("frameshift_variant", 10), ("nonsense_variant", 9), ("splice_site_variant", 8),
   ("missense_variant", 6), ("inframe_deletion", 5), ("inframe_insertion", 5),
   ("synonymous_variant", 2), ("intron_variant", 1), ("Unknown", 3)]

/-- `gnomad_pli` in `_get_gene_constraint`. -/
def gnomadPli : List (String × ℚ) :=
  [("BRCA1", 0), ("BRCA2", 0), ("TP53", 1), ("PTEN", 1),
   ("MLH1", dec 99 2), ("MSH2", 1), ("CFTR", 1), ("HBB", dec 98 2),
   ("DMD", 1), ("EGFR", dec 4 2), ("KRAS", 0), ("NRAS", 0),
   ("AKT1", 0), ("ATM", dec 3 2), ("APC", dec 63 2), ("CDKN2A", dec 4 2),
   ("STK11", 1), ("ROS1", 0), ("PDGFRA", 0), ("IDH2", 0)]

/-- `table.get(key, default)` over an association list. -/
def lookupD (l : List (String × α)) (k : String) (d : α) : α :=
  match l.find? (fun p => p.1 = k) with
  | some p => p.2
  | Option.none => d

/-- `consequence_severity.get(value, 3)`: a dict `get` hashes any non-dict value, and a
non-string key is simply absent (default 3); a dict key would raise. -/
def severityOf : PyVal → Option ℚ
  | .str s => some (lookupD consequenceSeverity s 3)
  | .info _ => Option.none
  | _ => some 3

/-- `_get_gene_constraint(gene)` = `gnomad_pli.get(gene, 0.5)`. -/
def geneConstraintOf : PyVal → Option ℚ
  | .str s => some (lookupD gnomadPli s (dec 5 1))
  | .info _ => Option.none
  | _ => some (dec 5 1)

/-- The `is_coding` feature: `any(x in consequence for x in [...])`; the substring test
raises `TypeError` on a non-string consequence. -/
def isCodingOf : PyVal → Option ℚ
  | .str s =>
      some (if strContains s "missense" ∨ strContains s "nonsense" ∨
              strContains s "frameshift" then 1 else 0)
  | _ => Option.none

/-- `float(variant.get('quality', 0)) if variant.get('quality') != '.' else 0`. -/
def qualityScoreOf : Option PyVal → Option ℚ
  | some (.str ".") => some 0
  | some v => pyFloat v
  | Option.none => some 0

/-- The feature dictionary of `extract_features`, in its (significant) insertion order. -/
structure Features where
  consequence_score : ℚ
  allele_frequency : ℚ
  quality_score : ℚ
  is_coding : ℚ
  gene_constraint : ℚ
deriving DecidableEq, Repr

/-- `EnsembleVariantClassifier.extract_features` on a variant dictionary; `none` models a
raised exception (non-numeric quality, non-string consequence, dict-valued field). -/
def extractFeatures (variant : List (String × PyVal)) : Option Features := do
  let cs ← severityOf (dGetD variant "consequence" (.str "Unknown"))
  let af ← pyFloat (dGetD variant "allele_frequency" (.rat 0))
  let qs ← qualityScoreOf (dGet variant "quality")
  let ic ← isCodingOf (dGetD variant "consequence" (.str ""))
  let gc ← geneConstraintOf (dGetD variant "gene" (.str "Unknown"))
  pure ⟨cs, af, qs, ic, gc⟩

/-- `list(features.values())`: the feature vector in its fixed order
`[consequence_score, allele_frequency, quality_score, is_coding, gene_constraint]`. -/
def featureVector (f : Features) : List ℚ :=
  [f.consequence_score, f.allele_frequency, f.quality_score, f.is_coding, f.gene_constraint]

/-- The classification threshold chain of `predict_pathogenicity` (lines 265–274). -/
def classify (p : ℚ) : String :=
  if p ≥ dec 9 1 then "Pathogenic"
  else if p ≥ dec 7 1 then "Likely Pathogenic"
  else if p ≥ dec 3 1 then "Uncertain Significance"
  else if p ≥ dec 1 1 then "Likely Benign"
  else "Benign"

/-- Exact round-half-to-even to 3 decimals (model of Python `round(x, 3)`). -/
def roundTo3 (q : ℚ) : ℚ :=
  let n := q * 1000
  let f := n.floor
  let frac := n - f
  if frac < 1/2 then (f : ℚ) / 1000
  else if frac > 1/2 then ((f : ℚ) + 1) / 1000
  else if f % 2 = 0 then (f : ℚ) / 1000 else ((f : ℚ) + 1) / 1000

/-- `_get_clinical_significance(classification, variant)`. -/
def getClinicalSignificance (classification : String) (variant : List (String × PyVal)) :
    String :=
  let gene := pyStrOf (dGetD variant "gene" (.str "Unknown"))
  if classification = "Pathogenic" then
    "Clinical action recommended. Variant in " ++ gene ++ " is associated with disease risk."
  else if classification = "Likely Pathogenic" then
    "Consider clinical correlation. Variant in " ++ gene ++ " may be disease-associated."
  else if classification = "Uncertain Significance" then
    "Insufficient evidence. Monitor literature for updates on " ++ gene ++ " variants."
  else if classification = "Likely Benign" then
    "No clinical action needed. Variant appears benign based on current evidence."
  else if classification = "Benign" then
    "No clinical concern. Common variant with no known pathogenicity."
  else "Unknown clinical significance"

/-- The trained models: each predictor maps the feature vector to the class-1
probability (`model.predict_proba(X)[0][1]`).  The random forest is always present
when `predict_pathogenicity` runs (it trains on demand); `lr`/`xgb` may be absent
(e.g. `xgb_model = None` when XGBoost is unavailable). -/
structure ClassifierState where
  rf : List ℚ → ℚ
  lr : Option (List ℚ → ℚ)
  xgb : Option (List ℚ → ℚ)

/-- The prediction dictionary returned by `predict_pathogenicity`. -/
structure Prediction where
  variant_id : Option PyVal
  classification : String
  pathogenic_probability : ℚ
  confidence : ℚ
  model_used : String
  features_used : Features
  clinical_significance : String
deriving Repr

/-- `EnsembleVariantClassifier.predict_pathogenicity`: ensemble averaging when requested
and all three models are present, otherwise the random forest alone; thresholds as in
`classify`.  `none` models an exception raised by `extract_features`. -/
def predictPathogenicity (st : ClassifierState) (variant : List (String × PyVal))
    (useEnsemble : Bool) : Option Prediction := do
  let feats ← extractFeatures variant
  let X := featureVector feats
  let pm : ℚ × String :=
    match useEnsemble, st.lr, st.xgb with
    | true, some lr, some xgb => ((st.rf X + lr X + xgb X) / 3, "ensemble")
    | _, _, _ => (st.rf X, "random_forest")
  let label := classify pm.1
  pure { variant_id := dGet variant "id"
         classification := label
         pathogenic_probability := roundTo3 pm.1
         confidence := roundTo3 (max pm.1 (1 - pm.1))
         model_used := pm.2
         features_used := feats
         clinical_significance := getClinicalSignificance label variant }

/-! ## `gnomad_data.py` -/

/-- `GNOMAD_POPULATION_FREQUENCIES`. -/
def gnomadPopulationFrequencies : List (String × List (String × ℚ)) :=
  [("chr17:43044295:T>C",
    [("African", dec 15 5), ("Amish", 0), ("Ashkenazi_Jewish", dec 12 5),
     ("East_Asian", dec 8 5), ("Finnish", dec 9 5), ("Non_Finnish_European", dec 1 4),
     ("Latino", dec 13 5), ("Middle_Eastern", dec 11 5), ("South_Asian", dec 14 5),
     ("Other", dec 12 5)]),
   ("chr13:32315474:G>T",
    [("African", dec 18 5), ("Amish", 0), ("Ashkenazi_Jewish", dec 25 5),
     ("East_Asian", dec 6 5), ("Finnish", dec 8 5), ("Non_Finnish_European", dec 1 4),
     ("Latino", dec 11 5), ("Middle_Eastern", dec 9 5), ("South_Asian", dec 12 5),
     ("Other", dec 1 4)]),
   ("chr7:55242464:G>A",
    [("African", dec 12 4), ("Amish", 0), ("Ashkenazi_Jewish", dec 9 4),
     ("East_Asian", dec 15 4), ("Finnish", dec 8 4), ("Non_Finnish_European", dec 1 3),
     ("Latino", dec 11 4), ("Middle_Eastern", dec 1 3), ("South_Asian", dec 13 4),
     ("Other", dec 1 3)]),
   ("chr2:67890:C>T",
    [("African", dec 22 5), ("Amish", 0), ("Ashkenazi_Jewish", dec 15 5),
     ("East_Asian", dec 18 5), ("Finnish", dec 16 5), ("Non_Finnish_European", dec 2 4),
     ("Latino", dec 19 5), ("Middle_Eastern", dec 17 5), ("South_Asian", dec 21 5),
     ("Other", dec 2 4)]),
   ("chr12:25398285:C>G",
    [("African", dec 45 5), ("Amish", 0), ("Ashkenazi_Jewish", dec 4 4),
     ("East_Asian", dec 6 4), ("Finnish", dec 42 5), ("Non_Finnish_European", dec 5 4),
     ("Latino", dec 48 5), ("Middle_Eastern", dec 46 5), ("South_Asian", dec 52 5),
     ("Other", dec 5 4)]),
   ("chr10:89624227:T>A",
    [("African", dec 19 5), ("Amish", 0), ("Ashkenazi_Jewish", dec 16 5),
     ("East_Asian", dec 14 5), ("Finnish", dec 15 5), ("Non_Finnish_European", dec 2 4),
     ("Latino", dec 18 5), ("Middle_Eastern", dec 17 5), ("South_Asian", dec 21 5),
     ("Other", dec 2 4)])]

/-- `pop_mapping` in `get_population_frequency`. -/
def popMapping : List (String × String) :=
  [("African American", "African"), ("East Asian", "East_Asian"),
   ("European", "Non_Finnish_European"), ("Hispanic/Latinx", "Latino"),
   ("South Asian", "South_Asian"), ("Middle Eastern", "Middle_Eastern")]

/-! ## `clinical_annotator.py` — `ClinicalAnnotator` -/

/-- A drug/therapy table entry. -/
structure DrugRec where
  drugs : List String
  indication : String
  evidence_level : String
deriving DecidableEq, Repr

/-- A gene–disease association table entry. -/
structure DiseaseInfo where
  diseases : List String
  inheritance : String
  prevalence : String
  category : String
  origin : String
deriving DecidableEq, Repr

/-- `_load_pharmacogenomics_db`. -/
def drugGeneDb : List (String × DrugRec) :=
  [("BRCA1", ⟨["Olaparib", "Talazoparib", "Rucaparib"],
     "PARP inhibitors for BRCA-mutated cancers", "FDA Approved"⟩),
   ("BRCA2", ⟨["Olaparib", "Talazoparib"],
     "PARP inhibitors for BRCA-mutated cancers", "FDA Approved"⟩),
   ("EGFR", ⟨["Osimertinib", "Gefitinib", "Erlotinib"], "EGFR-mutated NSCLC", "FDA Approved"⟩),
   ("TP53", ⟨["Clinical trial consideration"], "Li-Fraumeni syndrome surveillance",
     "Clinical Guidelines"⟩),
   ("KRAS", ⟨["Sotorasib", "Adagrasib"], "KRAS G12C-mutated cancers", "FDA Approved"⟩),
   ("MLH1", ⟨["Immunotherapy consideration"], "MSI-high tumors", "Clinical Guidelines"⟩),
   ("MSH2", ⟨["Immunotherapy consideration"], "MSI-high tumors", "Clinical Guidelines"⟩),
   ("CFTR", ⟨["Ivacaftor", "Lumacaftor", "Tezacaftor"], "CF with specific CFTR mutations",
     "FDA Approved"⟩),
   ("HBB", ⟨["Hydroxyurea", "Voxelotor", "Crizanlizumab"], "Sickle cell disease",
     "FDA Approved"⟩),
   ("F8", ⟨["Factor VIII replacement therapy"], "Hemophilia A", "Standard of Care"⟩),
   ("GBA", ⟨["Eliglustat", "Imiglucerase"], "Gaucher disease", "FDA Approved"⟩),
   ("DMD", ⟨["Eteplirsen", "Golodirsen"], "Duchenne MD (exon-specific)", "FDA Approved"⟩),
   ("SMN1", ⟨["Nusinersen", "Onasemnogene"], "Spinal muscular atrophy", "FDA Approved"⟩)]

/-- `_load_disease_associations`. -/
def diseaseAssociations : List (String × DiseaseInfo) :=
  [("BRCA1", ⟨["Hereditary Breast and Ovarian Cancer"], "Autosomal Dominant", "1 in 400",
     "Cancer Predisposition", "Germline"⟩),
   ("BRCA2", ⟨["Hereditary Breast and Ovarian Cancer"], "Autosomal Dominant", "1 in 400",
     "Cancer Predisposition", "Germline"⟩),
   ("TP53", ⟨["Li-Fraumeni Syndrome"], "Autosomal Dominant", "Rare (<1 in 5,000)",
     "Cancer Predisposition", "Germline or Somatic"⟩),
   ("EGFR", ⟨["Non-Small Cell Lung Cancer"], "Somatic", "15% of NSCLC", "Oncology",
     "Somatic"⟩),
   ("KRAS", ⟨["Colorectal/Lung Cancer"], "Somatic", "30-40% CRC", "Oncology", "Somatic"⟩),
   ("MLH1", ⟨["Lynch Syndrome"], "Autosomal Dominant", "1 in 300", "Cancer Predisposition",
     "Germline"⟩),
   ("MSH2", ⟨["Lynch Syndrome"], "Autosomal Dominant", "1 in 300", "Cancer Predisposition",
     "Germline"⟩),
   ("PTEN", ⟨["PTEN Hamartoma Syndrome"], "Autosomal Dominant", "Rare",
     "Cancer Predisposition", "Germline"⟩),
   ("ATM", ⟨["Ataxia-Telangiectasia"], "Autosomal Recessive", "1 in 40,000",
     "Cancer Predisposition", "Germline"⟩),
   ("CFTR", ⟨["Cystic Fibrosis"], "Autosomal Recessive", "1 in 3,500 (European)",
     "Rare Disease", "Germline"⟩),
   ("HBB", ⟨["Sickle Cell Disease", "Beta-Thalassemia"], "Autosomal Recessive",
     "1 in 365 (African American)", "Rare Disease", "Germline"⟩),
   ("HEXA", ⟨["Tay-Sachs Disease"], "Autosomal Recessive", "1 in 3,600 (Ashkenazi Jewish)",
     "Rare Disease", "Germline"⟩),
   ("PKD1", ⟨["Polycystic Kidney Disease"], "Autosomal Dominant", "1 in 1,000",
     "Rare Disease", "Germline"⟩),
   ("DMD", ⟨["Duchenne Muscular Dystrophy"], "X-linked Recessive", "1 in 5,000 males",
     "Rare Disease", "Germline"⟩),
   ("FMR1", ⟨["Fragile X Syndrome"], "X-linked Dominant", "1 in 4,000 males",
     "Rare Disease", "Germline"⟩),
   ("GBA", ⟨["Gaucher Disease"], "Autosomal Recessive", "1 in 40,000", "Rare Disease",
     "Germline"⟩),
   ("F8", ⟨["Hemophilia A"], "X-linked Recessive", "1 in 5,000 males", "Rare Disease",
     "Germline"⟩),
   ("PAH", ⟨["Phenylketonuria"], "Autosomal Recessive", "1 in 10,000", "Rare Disease",
     "Germline"⟩),
   ("SMN1", ⟨["Spinal Muscular Atrophy"], "Autosomal Recessive", "1 in 10,000",
     "Rare Disease", "Germline"⟩)]

/-- The errors the annotator and report stages can raise. -/
inductive AnnotErr where
  | missingKeys (ks : List String)
  | typeError (msg : String)
  | keyError (k : String)
deriving DecidableEq, Repr

/-- `get_population_frequency(variant.get('id'), patient_ancestry)`: unmapped ancestries
use the `"Other"` bucket, unknown/missing/non-string ids get the default `0.0001`; a
dict-valued id is unhashable and raises. -/
def getPopulationFrequency (variantId : Option PyVal) (population : String) :
    Except AnnotErr ℚ :=
  let popKey := lookupD popMapping population "Other"
  match variantId with
  | some (.info _) => .error (.typeError "unhashable type: 'dict'")
  | some (.str s) =>
      match gnomadPopulationFrequencies.find? (fun p => p.1 = s) with
      | some p => .ok (lookupD p.2 popKey (dec 1 4))
      | Option.none => .ok (dec 1 4)
  | _ => .ok (dec 1 4)

/-- Python truthiness of an optional float (`None` and `0.0` are falsy). -/
def freqTruthy : Option ℚ → Bool
  | some q => decide (q ≠ 0)
  | Option.none => false

/-- `pop_freq < t` on an optional frequency (only asked after a truthiness guard). -/
def freqLt (f : Option ℚ) (t : ℚ) : Bool :=
  match f with
  | some q => decide (q < t)
  | Option.none => false

/-- `pop_freq > t` on an optional frequency (only asked after a truthiness guard). -/
def freqGt (f : Option ℚ) (t : ℚ) : Bool :=
  match f with
  | some q => decide (q > t)
  | Option.none => false

/-- `_determine_acmg_criteria(variant, ml_prediction, pop_freq)`: criteria appended in
source order PVS1, PM2, PP3, BA1, BP7.  The frequency guards are the Python conditions
`if pop_freq and pop_freq < 0.0001` / `if pop_freq and pop_freq > 0.05`: a falsy
(zero or `None`) frequency short-circuits both. -/
def determineAcmgCriteria (variant mlPrediction : List (String × PyVal))
    (popFreq : Option ℚ) : List String :=
  let consequence := dGetD variant "consequence" (.str "")
  let classification := dGetD mlPrediction "classification" (.str "")
  (if consequence = .str "frameshift_variant" ∨ consequence = .str "nonsense_variant"
   then ["PVS1"] else []) ++
  (if freqTruthy popFreq && freqLt popFreq (dec 1 4) then ["PM2"] else []) ++
  (if classification = .str "Pathogenic" ∨ classification = .str "Likely Pathogenic"
   then ["PP3"] else []) ++
  (if freqTruthy popFreq && freqGt popFreq (dec 5 2) then ["BA1"] else []) ++
  (if consequence = .str "synonymous_variant" then ["BP7"] else [])

/-- Python ordering `v > t` between a dictionary value and a float: numbers and booleans
compare, other types raise `TypeError`. -/
def pyGtQ (v : PyVal) (t : ℚ) : Except AnnotErr Bool :=
  match v with
  | .int n => .ok (decide ((n : ℚ) > t))
  | .rat q => .ok (decide (q > t))
  | .bool b => .ok (decide ((if b then (1 : ℚ) else 0) > t))
  | _ => .error (.typeError "'>' not supported between these types")

/-- `key in table` for a string-keyed dict: a dict-valued key is unhashable. -/
def pyInStrTable (v : PyVal) (tbl : List (String × α)) : Except AnnotErr Bool :=
  match v with
  | .info _ => .error (.typeError "unhashable type: 'dict'")
  | .str s => .ok (tbl.any (fun p => p.1 = s))
  | _ => .ok false

/-- `_assess_annotation_confidence(ml_prediction, pop_freq, gene)`. -/
def assessAnnotationConfidence (mlPrediction : List (String × PyVal)) (popFreq : Option ℚ)
    (gene : PyVal) : Except AnnotErr String := do
  let mlConfidence := dGetD mlPrediction "confidence" (.int 0)
  let gt9 ← pyGtQ mlConfidence (dec 9 1)
  let base : ℕ ←
    if gt9 then pure 3
    else do
      let gt7 ← pyGtQ mlConfidence (dec 7 1)
      pure (if gt7 then 2 else 1)
  let hasDiseaseData ← pyInStrTable gene diseaseAssociations
  let hasPopData := popFreq.isSome
  let score := base + (if hasDiseaseData then 2 else 0) + (if hasPopData then 1 else 0)
  pure (if score ≥ 5 then "High" else if score ≥ 3 then "Moderate" else "Low")

/-- `_get_variant_origin(gene)` = `disease_associations.get(gene, {}).get('origin', 'Unknown')`. -/
def getVariantOrigin (gene : PyVal) : Except AnnotErr String :=
  match gene with
  | .info _ => .error (.typeError "unhashable type: 'dict'")
  | .str s =>
      match diseaseAssociations.find? (fun p => p.1 = s) with
      | some p => .ok p.2.origin
      | Option.none => .ok "Unknown"
  | _ => .ok "Unknown"

/-- `_get_drug_recommendations(gene)`. -/
def getDrugRecommendations (gene : PyVal) : Except AnnotErr DrugRec :=
  match gene with
  | .info _ => .error (.typeError "unhashable type: 'dict'")
  | .str s =>
      match drugGeneDb.find? (fun p => p.1 = s) with
      | some p => .ok p.2
      | Option.none => .ok ⟨[], "No specific therapies", "N/A"⟩
  | _ => .ok ⟨[], "No specific therapies", "N/A"⟩

/-- `_get_disease_info(gene)`. -/
def getDiseaseInfo (gene : PyVal) : Except AnnotErr DiseaseInfo :=
  match gene with
  | .info _ => .error (.typeError "unhashable type: 'dict'")
  | .str s =>
      match diseaseAssociations.find? (fun p => p.1 = s) with
      | some p => .ok p.2
      | Option.none => .ok ⟨["Unknown"], "Unknown", "Unknown", "Unknown", "Unknown"⟩
  | _ => .ok ⟨["Unknown"], "Unknown", "Unknown", "Unknown", "Unknown"⟩

/-- `actionable_genes` in `_assess_actionability`. -/
def actionableGenes : List String :=
  ["BRCA1", "BRCA2", "EGFR", "KRAS", "CFTR", "HBB", "F8", "GBA", "DMD", "SMN1"]

/-- `_assess_actionability(variant, ml_prediction, pop_freq)`: the common-population
check `if pop_freq and pop_freq > 0.01` first, then the classification tiers. -/
def assessActionability (variant mlPrediction : List (String × PyVal))
    (popFreq : Option ℚ) : String :=
  let classification := dGetD mlPrediction "classification" (.str "Uncertain Significance")
  let gene := dGetD variant "gene" (.str "Unknown")
  if freqTruthy popFreq && freqGt popFreq (dec 1 2) then
    "LOW - Common population variant, likely benign"
  else if classification = .str "Pathogenic" ∨ classification = .str "Likely Pathogenic" then
    if (match gene with | .str s => decide (s ∈ actionableGenes) | _ => false : Bool) then
      "HIGH - Clinical action recommended (therapies available)"
    else
      "MODERATE - Genetic counseling recommended"
  else if classification = .str "Uncertain Significance" then
    "LOW - Monitoring and periodic re-evaluation"
  else
    "MINIMAL - No immediate action required"

/-- `_generate_patient_summary(gene, ml_prediction)`. -/
def generatePatientSummary (gene : PyVal) (mlPrediction : List (String × PyVal)) :
    Except AnnotErr String :=
  let classification := dGetD mlPrediction "classification" (.str "Uncertain")
  let g := pyStrOf gene
  match classification with
  | .info _ => .error (.typeError "unhashable type: 'dict'")
  | .str s =>
      .ok (if s = "Pathogenic" then
             "Significant genetic change in " ++ g ++ " gene increases health risks."
           else if s = "Likely Pathogenic" then
             "Genetic change in " ++ g ++ " likely affects health."
           else if s = "Uncertain Significance" then
             "Genetic change in " ++ g ++ " needs more research."
           else if s = "Likely Benign" then
             "Genetic change in " ++ g ++ " unlikely to affect health."
           else if s = "Benign" then
             "Common variation in " ++ g ++ " with no health concerns."
           else "Discuss with healthcare provider.")
  | _ => .ok "Discuss with healthcare provider."

/-- `population_data` sub-dictionary of an annotation. -/
structure PopulationData where
  patient_ancestry : String
  allele_frequency_in_population : ℚ
  gnomad_integrated : Bool
deriving DecidableEq, Repr

/-- The annotation dictionary built by `ClinicalAnnotator.annotate_variant`. -/
structure ClinicalAnnot where
  variant : List (String × PyVal)
  ml_classification : List (String × PyVal)
  pharmacogenomics : DrugRec
  disease_association : DiseaseInfo
  clinical_actionability : String
  patient_impact : String
  population_data : PopulationData
  acmg_support : List String
  annotation_confidence : String
  variant_origin : String
deriving DecidableEq, Repr

/-- `ClinicalAnnotator.annotate_variant(variant, ml_prediction, patient_ancestry)`: the
required-key validation first (`ValueError` listing the missing keys), then population
lookup, ACMG criteria, confidence, origin and the annotation dictionary. -/
def annotateVariant (variant mlPrediction : List (String × PyVal))
    (patientAncestry : String := "Unknown") : Except AnnotErr ClinicalAnnot :=
  let missing := ["classification", "pathogenic_probability"].filter
    (fun k => ¬ hasKey mlPrediction k)
  if missing ≠ [] then .error (.missingKeys missing)
  else do
    let gene := dGetD variant "gene" (.str "Unknown")
    let variantId := dGet variant "id"
    let popFreq ← getPopulationFrequency variantId patientAncestry
    let acmgCriteria := determineAcmgCriteria variant mlPrediction (some popFreq)
    let annotationConfidence ← assessAnnotationConfidence mlPrediction (some popFreq) gene
    let variantOrigin ← getVariantOrigin gene
    let pharm ← getDrugRecommendations gene
    let disease ← getDiseaseInfo gene
    let impact ← generatePatientSummary gene mlPrediction
    pure { variant := variant
           ml_classification := mlPrediction
           pharmacogenomics := pharm
           disease_association := disease
           clinical_actionability := assessActionability variant mlPrediction (some popFreq)
           patient_impact := impact
           population_data := ⟨patientAncestry, popFreq, true⟩
           acmg_support := acmgCriteria
           annotation_confidence := annotationConfidence
           variant_origin := variantOrigin }

/-! ## `clinical_annotator.py` — `generate_clinical_report` (Report Aggregator)

Python's `sorted(..., key=..., reverse=True)` is a stable descending sort; it is modelled
by a stable insertion sort (`sortDesc`): an element is placed after every already-placed
element whose key is at least its own. -/

/-- Insert `x` into a descending-sorted list, after all entries with key `≥ key x`. -/
def insertDesc (key : α → ℚ) (x : α) : List α → List α
  | [] => [x]
  | y :: ys => if key y < key x then x :: y :: ys else y :: insertDesc key x ys

/-- Stable descending sort by `key` (model of `sorted(l, key=key, reverse=True)`). -/
def sortDesc (key : α → ℚ) (l : List α) : List α :=
  l.foldl (fun acc x => insertDesc key x acc) []

/-- `dict[k]` indexing: a missing key raises `KeyError`. -/
def getItem (d : List (String × PyVal)) (k : String) : Except AnnotErr PyVal :=
  match dGet d k with
  | some v => .ok v
  | Option.none => .error (.keyError k)

/-- The membership test of the `actionable` comprehension:
`a['ml_classification']['classification'] in ['Pathogenic', 'Likely Pathogenic']`. -/
def isActionable (a : ClinicalAnnot) : Except AnnotErr Bool := do
  let c ← getItem a.ml_classification "classification"
  pure (c = .str "Pathogenic" ∨ c = .str "Likely Pathogenic")

/-- An effectful, order-preserving filter (model of a Python list comprehension whose
condition may raise). -/
def filterE (p : α → Except ε Bool) : List α → Except ε (List α)
  | [] => .ok []
  | x :: xs => do
      let b ← p x
      let rest ← filterE p xs
      pure (if b then x :: rest else rest)

/-- An effectful map (model of a Python comprehension whose body may raise). -/
def mapE (p : α → Except ε β) : List α → Except ε (List β)
  | [] => .ok []
  | x :: xs => do
      let y ← p x
      let rest ← mapE p xs
      pure (y :: rest)

/-- `'pat' in a['ml_classification']['classification']`: substring match, raising
`TypeError` on a non-string classification. -/
def classificationContains (pat : String) (a : ClinicalAnnot) : Except AnnotErr Bool := do
  let c ← getItem a.ml_classification "classification"
  match c with
  | .str s => pure (strContains s pat)
  | _ => .error (.typeError "argument of type is not iterable")

/-- The sort key `a['ml_classification']['pathogenic_probability']` paired with its
annotation; Python compares the keys with `<`, which raises on non-numeric values
(modelled here whenever a key is non-numeric; Python raises only when such a key is
actually compared, which never matters below). -/
def probKeyed (a : ClinicalAnnot) : Except AnnotErr (ClinicalAnnot × ℚ) := do
  let p ← getItem a.ml_classification "pathogenic_probability"
  match pyFloat p with
  | some q => pure (a, q)
  | Option.none => .error (.typeError "'<' not supported between these types")

/-- The `summary` sub-dictionary of a clinical report. -/
structure ReportSummary where
  total_variants : ℕ
  pathogenic : ℕ
  uncertain : ℕ
  benign : ℕ
deriving DecidableEq, Repr

/-- The `categorized_findings` sub-dictionary of a clinical report. -/
structure CategorizedFindings where
  cancer_predisposition : ℕ
  rare_diseases : ℕ
  oncology_somatic : ℕ
deriving DecidableEq, Repr

/-- The dictionary returned by `generate_clinical_report`. -/
structure ClinicalReport where
  summary : ReportSummary
  categorized_findings : CategorizedFindings
  priority_variants : List ClinicalAnnot
  genetic_counseling_indicated : Bool
  high_confidence_findings : ℕ
deriving DecidableEq, Repr

/-- `ClinicalAnnotator.generate_clinical_report(annotations)`: actionable = Pathogenic or
Likely Pathogenic (exact match), substring-matched summary counts, category tallies,
priority variants = stable descending sort by probability truncated to 5, counseling
flag = some actionable variant exists. -/
def generateClinicalReport (annotations : List ClinicalAnnot) :
    Except AnnotErr ClinicalReport := do
  let actionable ← filterE isActionable annotations
  let cancerVariants := actionable.filter
    (fun a => a.disease_association.category = "Cancer Predisposition")
  let rareDiseaseVariants := actionable.filter
    (fun a => a.disease_association.category = "Rare Disease")
  let oncologyVariants := actionable.filter
    (fun a => a.disease_association.category = "Oncology")
  let pathogenicN ← filterE (classificationContains "Pathogenic") annotations
  let uncertainN ← filterE (classificationContains "Uncertain") annotations
  let benignN ← filterE (classificationContains "Benign") annotations
  let keyed ← mapE probKeyed actionable
  pure { summary := ⟨annotations.length, pathogenicN.length, uncertainN.length,
                     benignN.length⟩
         categorized_findings := ⟨cancerVariants.length, rareDiseaseVariants.length,
                                  oncologyVariants.length⟩
         priority_variants := ((sortDesc Prod.snd keyed).map Prod.fst).take 5
         genetic_counseling_indicated := !actionable.isEmpty
         high_confidence_findings :=
           (actionable.filter (fun a => a.annotation_confidence = "High")).length }

/-! ## Statement-side helpers

Total projections used to state the claims about annotations whose prediction fields are
well-typed (a string classification, a numeric pathogenic probability), as the data
model of the spec requires. -/

/-- Whether an annotation's classification is Pathogenic or Likely Pathogenic. -/
def actionableB (a : ClinicalAnnot) : Bool :=
  dGet a.ml_classification "classification" = some (.str "Pathogenic") ∨
  dGet a.ml_classification "classification" = some (.str "Likely Pathogenic")

/-- The pathogenic probability of an annotation (0 when absent or non-rational). -/
def pathProbOf (a : ClinicalAnnot) : ℚ :=
  match dGet a.ml_classification "pathogenic_probability" with
  | some (.rat q) => q
  | _ => 0

/-- The classification label of an annotation (`""` when absent or non-string). -/
def clsStrOf (a : ClinicalAnnot) : String :=
  match dGet a.ml_classification "classification" with
  | some (.str s) => s
  | _ => ""

/-- The record-keeping condition of the filtering claim: quality present (not `'.'`),
parseable and at least `minQuality`; FILTER `PASS` or `'.'` when `passOnly` is set; and
cohort allele frequency at most `maxCohortAF`. -/
def keeps (minQuality maxCohortAF : ℚ) (passOnly : Bool) (r : VariantRecord) : Bool :=
  (!(r.quality == ".") && (parsePyFloat r.quality).elim false (fun q => minQuality ≤ q)) &&
  (!passOnly || (r.filter == "PASS" || r.filter == ".")) &&
  decide (r.cohort_allele_frequency ≤ maxCohortAF)

/-- A concrete annotation used by the C10 witness. -/
def sampleAnnot (cls : String) (prob : ℚ) : ClinicalAnnot :=
  { variant := [("gene", .str "BRCA1")]
    ml_classification := [("classification", .str cls), ("pathogenic_probability", .rat prob)]
    pharmacogenomics := ⟨[], "No specific therapies", "N/A"⟩
    disease_association := ⟨["Unknown"], "Unknown", "Unknown", "Unknown", "Unknown"⟩
    clinical_actionability := "MODERATE - Genetic counseling recommended"
    patient_impact := "x"
    population_data := ⟨"Unknown", dec 1 4, true⟩
    acmg_support := []
    annotation_confidence := "High"
    variant_origin := "Unknown" }

/-! ## Helper lemmas -/

theorem filterE_ok {p : α → Except ε Bool} {f : α → Bool} :
    ∀ l : List α, (∀ a ∈ l, p a = .ok (f a)) → filterE p l = .ok (l.filter f)
  | [], _ => rfl
  | x :: xs, h => by
      have hx := h x (List.mem_cons_self x xs)
      have hxs := filterE_ok (p := p) (f := f) xs (fun a ha => h a (List.mem_cons_of_mem x ha))
      unfold filterE
      rw [hx, hxs]
      show Except.ok (if f x then x :: xs.filter f else xs.filter f) = _
      cases hfx : f x <;> simp [List.filter_cons, hfx]

theorem mapE_ok {p : α → Except ε β} {f : α → β} :
    ∀ l : List α, (∀ a ∈ l, p a = .ok (f a)) → mapE p l = .ok (l.map f)
  | [], _ => rfl
  | x :: xs, h => by
      have hx := h x (List.mem_cons_self x xs)
      have hxs := mapE_ok (p := p) (f := f) xs (fun a ha => h a (List.mem_cons_of_mem x ha))
      unfold mapE
      rw [hx, hxs]
      rfl

theorem insertDesc_perm (key : α → ℚ) (x : α) :
    ∀ l : List α, (insertDesc key x l).Perm (x :: l)
  | [] => List.Perm.refl _
  | y :: ys => by
      unfold insertDesc
      split
      · exact List.Perm.refl _
      · exact ((insertDesc_perm key x ys).cons y).trans (List.Perm.swap x y ys)

theorem insertDesc_mem {key : α → ℚ} {x z : α} {l : List α} :
    z ∈ insertDesc key x l → z = x ∨ z ∈ l := by
  intro hz
  have := (insertDesc_perm key x l).mem_iff.mp hz
  simpa using this

theorem insertDesc_sorted {key : α → ℚ} {x : α} :
    ∀ {l : List α}, l.Pairwise (fun a b => key b ≤ key a) →
      (insertDesc key x l).Pairwise (fun a b => key b ≤ key a) := by
  intro l
  induction l with
  | nil => intro _; simp [insertDesc]
  | cons y ys ih =>
      intro h
      rcases List.pairwise_cons.mp h with ⟨hy, hys⟩
      unfold insertDesc
      split
      · rename_i hlt
        refine List.pairwise_cons.mpr ⟨?_, h⟩
        intro z hz
        rcases List.mem_cons.mp hz with rfl | hz
        · exact le_of_lt hlt
        · exact le_trans (hy z hz) (le_of_lt hlt)
      · rename_i hnlt
        refine List.pairwise_cons.mpr ⟨?_, ih hys⟩
        intro z hz
        rcases insertDesc_mem hz with rfl | hz
        · exact not_lt.mp hnlt
        · exact hy z hz

theorem insertDesc_filter_key (key : α → ℚ) (x : α) (q : ℚ) :
    ∀ {l : List α}, l.Pairwise (fun a b => key b ≤ key a) →
      (insertDesc key x l).filter (fun a => key a = q) =
        if key x = q then l.filter (fun a => key a = q) ++ [x]
        else l.filter (fun a => key a = q) := by
  intro l
  induction l with
  | nil =>
      intro _
      by_cases hxq : key x = q <;> simp [insertDesc, List.filter, hxq]
  | cons y ys ih =>
      intro h
      rcases List.pairwise_cons.mp h with ⟨hy, hys⟩
      unfold insertDesc
      split
      · rename_i hlt
        by_cases hxq : key x = q
        · have hnone : (y :: ys).filter (fun a => key a = q) = [] := by
            refine List.filter_eq_nil_iff.mpr ?_
            intro z hz
            have hzy : key z ≤ key y := by
              rcases List.mem_cons.mp hz with rfl | hz'
              · exact le_refl _
              · exact hy z hz'
            have : key z < key x := lt_of_le_of_lt hzy hlt
            simp only [decide_eq_true_eq]
            intro hzq
            rw [hzq, ← hxq] at this
            exact lt_irrefl _ this
          simp [List.filter_cons, hxq, hnone]
        · simp [List.filter_cons, hxq]
      · rename_i hnlt
        by_cases hyq : key y = q <;>
          by_cases hxq : key x = q <;>
            simp [List.filter_cons, hyq, hxq, ih hys]

theorem sortDesc_aux_perm (key : α → ℚ) :
    ∀ (l acc : List α), (l.foldl (fun acc x => insertDesc key x acc) acc).Perm (acc ++ l)
  | [], acc => by simp
  | x :: xs, acc => by
      have h1 := sortDesc_aux_perm key xs (insertDesc key x acc)
      have h2 : (insertDesc key x acc ++ xs).Perm (acc ++ x :: xs) := by
        have := (insertDesc_perm key x acc).append_right xs
        exact this.trans (List.perm_middle.symm)
      simpa only [List.foldl_cons] using h1.trans h2

/-- `sortDesc` permutes its input. -/
theorem sortDesc_perm (key : α → ℚ) (l : List α) : (sortDesc key l).Perm l := by
  simpa using sortDesc_aux_perm key l []

theorem sortDesc_aux_sorted (key : α → ℚ) :
    ∀ (l acc : List α), acc.Pairwise (fun a b => key b ≤ key a) →
      (l.foldl (fun acc x => insertDesc key x acc) acc).Pairwise (fun a b => key b ≤ key a)
  | [], acc, h => h
  | x :: xs, acc, h => by
      simpa using sortDesc_aux_sorted key xs (insertDesc key x acc) (insertDesc_sorted h)

/-- `sortDesc` sorts by non-increasing key. -/
theorem sortDesc_sorted (key : α → ℚ) (l : List α) :
    (sortDesc key l).Pairwise (fun a b => key b ≤ key a) :=
  sortDesc_aux_sorted key l [] List.Pairwise.nil

theorem sortDesc_aux_stable (key : α → ℚ) (q : ℚ) :
    ∀ (l acc : List α), acc.Pairwise (fun a b => key b ≤ key a) →
      (l.foldl (fun acc x => insertDesc key x acc) acc).filter (fun a => key a = q) =
        acc.filter (fun a => key a = q) ++ l.filter (fun a => key a = q)
  | [], acc, _ => by simp
  | x :: xs, acc, h => by
      have h1 := sortDesc_aux_stable key q xs (insertDesc key x acc) (insertDesc_sorted h)
      have h2 := insertDesc_filter_key key x q h
      simp only [List.foldl_cons] at *
      rw [h1, h2, List.filter_cons]
      by_cases hxq : key x = q <;> simp [hxq]

/-- Stability of `sortDesc`: entries with any fixed key keep their original order. -/
theorem sortDesc_stable (key : α → ℚ) (l : List α) (q : ℚ) :
    (sortDesc key l).filter (fun a => key a = q) = l.filter (fun a => key a = q) := by
  simpa using sortDesc_aux_stable key q l [] List.Pairwise.nil

theorem insertDesc_map_pair (key : α → ℚ) (x : α) :
    ∀ l : List α,
      insertDesc Prod.snd (x, key x) (l.map (fun a => (a, key a))) =
        (insertDesc key x l).map (fun a => (a, key a))
  | [] => rfl
  | y :: ys => by
      simp only [List.map_cons, insertDesc]
      by_cases h : key y < key x <;> simp [h, insertDesc_map_pair key x ys]

theorem sortDesc_map_pair (key : α → ℚ) (l : List α) :
    sortDesc Prod.snd (l.map (fun a => (a, key a))) =
      (sortDesc key l).map (fun a => (a, key a)) := by
  unfold sortDesc
  rw [List.foldl_map]
  induction l using List.reverseRecOn with
  | nil => rfl
  | append_singleton xs x ih => simp [List.foldl_append, ih, insertDesc_map_pair]

/-! ## Claim theorems -/

/-- **C2.** The classification function is total on `[0,1]` and its five labels
partition the interval with lower-bound-inclusive boundaries at 0.1/0.3/0.7/0.9:
`p ≥ 0.9` is Pathogenic, `0.7 ≤ p < 0.9` Likely Pathogenic, `0.3 ≤ p < 0.7` Uncertain
Significance, `0.1 ≤ p < 0.3` Likely Benign, `p < 0.1` Benign — no gaps or overlaps. -/
theorem classify_total_partitions (p : ℚ) (h0 : 0 ≤ p) (h1 : p ≤ 1) :
    (classify p = "Pathogenic" ↔ 0.9 ≤ p) ∧
    (classify p = "Likely Pathogenic" ↔ 0.7 ≤ p ∧ p < 0.9) ∧
    (classify p = "Uncertain Significance" ↔ 0.3 ≤ p ∧ p < 0.7) ∧
    (classify p = "Likely Benign" ↔ 0.1 ≤ p ∧ p < 0.3) ∧
    (classify p = "Benign" ↔ p < 0.1) ∧
    classify p ∈ ["Pathogenic", "Likely Pathogenic", "Uncertain Significance",
      "Likely Benign", "Benign"] := by
  have e9 : dec 9 1 = (0.9 : ℚ) := by norm_num [dec, Rat.divInt_eq_div]
  have e7 : dec 7 1 = (0.7 : ℚ) := by norm_num [dec, Rat.divInt_eq_div]
  have e3 : dec 3 1 = (0.3 : ℚ) := by norm_num [dec, Rat.divInt_eq_div]
  have e1 : dec 1 1 = (0.1 : ℚ) := by norm_num [dec, Rat.divInt_eq_div]
  unfold classify
  rw [e9, e7, e3, e1]
  split_ifs with h2 h3 h4 h5 <;>
    refine ⟨?_, ?_, ?_, ?_, ?_, by simp⟩ <;>
    first
      | exact iff_of_true rfl (by linarith)
      | exact iff_of_true rfl ⟨by linarith, by linarith⟩
      | exact iff_of_false (by decide) (by intro hc; linarith)

/-- Witness for C2 at `p = 0.5`. -/
theorem classify_total_partitions_witness :
    classify 0.5 = "Uncertain Significance" := by
  have h := classify_total_partitions 0.5 (by norm_num) (by norm_num)
  exact h.2.2.1.mpr ⟨by norm_num, by norm_num⟩

/-- **C3.** Code bug: on the variant record parsed from a VCF line with INFO `AF=0.25`,
the record's cohort allele frequency is `0.25`, yet the feature extractor's second
component (`allele_frequency`) is `0`: the parser stores the value under the key
`cohort_allele_frequency` while `extract_features` reads the key `allele_frequency`,
so for every parser-produced record the frequency feature falls back to the default 0. -/
theorem extract_features_drops_cohort_af :
    ((parseVcf
        ["chr17\t43044295\t.\tT\tC\t55\tPASS\tAF=0.25;GENE=BRCA1;CONSEQUENCE=missense_variant"]).map
      (List.map (fun r => (r.cohort_allele_frequency,
        (extractFeatures (variantToDict r)).map (fun f => (featureVector f).getD 1 99)))))
      = some [(dec 25 2, some 0)] ∧
    dec 25 2 ≠ 0 ∧
    ∀ r : VariantRecord, dGet (variantToDict r) "allele_frequency" = Option.none := by
  refine ⟨by decide, by decide, ?_⟩
  intro r
  rfl

/-- **C7 counterexample.** The common-variant branch of `_assess_actionability` does not
return the lowest of the code's four tiers (MINIMAL): at population frequency `0.05` a
Benign-classified variant is assigned the LOW common-variant tier, strictly above the
MINIMAL tier the very same input receives at a rare frequency. -/
theorem actionability_override_not_lowest_tier :
    assessActionability [("gene", .str "TP53")] [("classification", .str "Benign")]
        (some (dec 5 2)) = "LOW - Common population variant, likely benign" ∧
    assessActionability [("gene", .str "TP53")] [("classification", .str "Benign")]
        (some (dec 1 4)) = "MINIMAL - No immediate action required" ∧
    "LOW - Common population variant, likely benign" ≠
      "MINIMAL - No immediate action required" := by
  refine ⟨by decide, by decide, by decide⟩

/-- **C7 (amended).** If the looked-up population frequency exceeds `0.01`, the
actionability assessment returns the LOW common-variant tier regardless of the ML
classification (overriding the HIGH/MODERATE tiers of Pathogenic calls), though that
tier is the third of the code's four tiers, not the MINIMAL one. -/
theorem actionability_common_variant_override
    (variant mlPrediction : List (String × PyVal)) (q : ℚ) (hq : 0.01 < q) :
    assessActionability variant mlPrediction (some q) =
      "LOW - Common population variant, likely benign" := by
  unfold assessActionability
  have hq0 : q ≠ 0 := ne_of_gt (by linarith)
  have hq' : dec 1 2 < q := by
    rw [show dec 1 2 = (0.01 : ℚ) from by norm_num [dec, Rat.divInt_eq_div]]
    exact hq
  have hcond : (freqTruthy (some q) && freqGt (some q) (dec 1 2)) = true := by
    simp [freqTruthy, freqGt, hq', hq0]
  rw [hcond]
  simp

/-- Witness for the amended C7 at frequency `0.05` on a Pathogenic prediction. -/
theorem actionability_common_variant_override_witness :
    assessActionability [("gene", .str "BRCA1")] [("classification", .str "Pathogenic")]
        (some 0.05) = "LOW - Common population variant, likely benign" :=
  actionability_common_variant_override _ _ 0.05 (by norm_num)

/-- **C8.** Code bug: `_determine_acmg_criteria` guards the rarity code with the Python
truthiness test `if pop_freq and pop_freq < 0.0001`, so a population frequency of
exactly `0` (falsy) does not receive PM2 even though `0 < 1e-4`, contradicting the
code's own comment (“Absent/rare in population databases”); a nonzero frequency below
`1e-4` does receive it. -/
theorem pm2_skipped_at_zero_frequency :
    determineAcmgCriteria [("consequence", .str "missense_variant")]
        [("classification", .str "Uncertain Significance")] (some 0) = [] ∧
    "PM2" ∉ determineAcmgCriteria [("consequence", .str "missense_variant")]
        [("classification", .str "Uncertain Significance")] (some 0) ∧
    determineAcmgCriteria [("consequence", .str "missense_variant")]
        [("classification", .str "Uncertain Significance")] (some (dec 5 5)) = ["PM2"] ∧
    (0 : ℚ) < 0.0001 := by
  refine ⟨by decide, by decide, by decide, by norm_num⟩

/-- **C4 counterexample.** A single-mode scoring call (ensemble requested, but the
logistic-regression and XGBoost predictors are absent) reports `model_used =
"random_forest"` — not `"single"`, so `modelUsed` is not drawn from
`{"single", "ensemble"}` as claimed. -/
theorem model_used_not_single :
    ((predictPathogenicity ⟨fun _ => dec 1 2, Option.none, Option.none⟩
        [("gene", .str "BRCA1"), ("consequence", .str "missense_variant")] true).map
      (fun p => p.model_used)) = some "random_forest" ∧
    "random_forest" ≠ "single" ∧ "random_forest" ≠ "ensemble" := by
  refine ⟨by decide, by decide, by decide⟩

/-- **C4 (amended).** Every scoring result's `model_used` is `"random_forest"` or
`"ensemble"`; when ensemble mode is requested but a predictor is missing, scoring
degrades to the single random-forest path without failing, the degradation observable as
`model_used = "random_forest"` (the single-model label) rather than `"ensemble"`. -/
theorem model_used_values (st : ClassifierState) (variant : List (String × PyVal))
    (useEnsemble : Bool) (feats : Features)
    (hf : extractFeatures variant = some feats) :
    ∃ p, predictPathogenicity st variant useEnsemble = some p ∧
      (p.model_used = "random_forest" ∨ p.model_used = "ensemble") ∧
      ((useEnsemble = true ∧ (st.lr = Option.none ∨ st.xgb = Option.none)) →
        p.model_used = "random_forest" ∧ p.model_used ≠ "ensemble" ∧
        p.pathogenic_probability = roundTo3 (st.rf (featureVector feats))) := by
  unfold predictPathogenicity
  rw [hf]
  rcases st with ⟨rf, lr, xgb⟩
  cases useEnsemble <;> rcases lr with _ | lr <;> rcases xgb with _ | xgb <;>
    exact ⟨_, rfl, by simp, by simp⟩

/-- Witness for the amended C4: an ensemble request with the XGBoost predictor absent
degrades to, and reports, the random forest. -/
theorem model_used_values_witness :
    ((predictPathogenicity ⟨fun _ => dec 1 2, some (fun _ => dec 3 1), Option.none⟩
        [("gene", .str "BRCA1")] true).map (fun p => p.model_used)) =
      some "random_forest" := by
  obtain ⟨p, hp, hmu, hdeg⟩ :=
    model_used_values ⟨fun _ => dec 1 2, some (fun _ => dec 3 1), Option.none⟩
      [("gene", .str "BRCA1")] true ⟨3, 0, 0, 0, 0⟩ (by decide)
  rw [hp]
  simp [(hdeg ⟨rfl, Or.inr rfl⟩).1]

/-! Error-shape lemmas: every error that `annotate_variant` can raise after its
required-key validation is a `TypeError`, never the validation's `ValueError`. -/

theorem ebind_ok (a : α) (f : α → Except ε β) :
    (Except.ok a >>= f) = f a := rfl

theorem ebind_err (e : ε) (f : α → Except ε β) :
    ((Except.error e : Except ε α) >>= f) = .error e := rfl

theorem getPopulationFrequency_error_shape {vid : Option PyVal} {pop : String}
    {e : AnnotErr} (h : getPopulationFrequency vid pop = .error e) :
    ∃ m, e = .typeError m := by
  unfold getPopulationFrequency at h
  rcases vid with _ | v
  · simp at h
  · cases v <;> simp at h <;>
      first
        | exact ⟨_, h.symm⟩
        | (rename_i s
           rcases hf : gnomadPopulationFrequencies.find? (fun p => p.1 = s) with _ | p <;>
             rw [hf] at h <;> simp at h)

theorem pyGtQ_error_shape {v : PyVal} {t : ℚ} {e : AnnotErr}
    (h : pyGtQ v t = .error e) : ∃ m, e = .typeError m := by
  unfold pyGtQ at h
  cases v <;> simp at h <;> exact ⟨_, h.symm⟩

theorem pyInStrTable_error_shape {v : PyVal} {tbl : List (String × α)} {e : AnnotErr}
    (h : pyInStrTable v tbl = .error e) : ∃ m, e = .typeError m := by
  unfold pyInStrTable at h
  cases v <;> simp at h
  exact ⟨_, h.symm⟩

theorem ebind_pure (a : α) (f : α → Except ε β) :
    ((pure a : Except ε α) >>= f) = f a := rfl

theorem assessAnnotationConfidence_error_shape {p : List (String × PyVal)}
    {f : Option ℚ} {g : PyVal} {e : AnnotErr}
    (h : assessAnnotationConfidence p f g = .error e) : ∃ m, e = .typeError m := by
  unfold assessAnnotationConfidence at h
  simp only [] at h
  rcases h9 : pyGtQ (dGetD p "confidence" (.int 0)) (dec 9 1) with e9 | b9
  · rw [h9, ebind_err] at h
    cases h
    exact pyGtQ_error_shape h9
  · rw [h9, ebind_ok] at h
    cases b9
    · rw [if_neg (by decide)] at h
      rcases h7 : pyGtQ (dGetD p "confidence" (.int 0)) (dec 7 1) with e7 | b7
      · rw [h7, ebind_err] at h
        cases h
        exact pyGtQ_error_shape h7
      · rw [h7, ebind_ok, ebind_pure] at h
        rcases ht : pyInStrTable g diseaseAssociations with et | bt
        · rw [ht, ebind_err] at h
          cases h
          exact pyInStrTable_error_shape ht
        · rw [ht, ebind_ok] at h
          simp [pure, Except.pure] at h
    · rw [if_pos rfl, ebind_pure] at h
      rcases ht : pyInStrTable g diseaseAssociations with et | bt
      · rw [ht, ebind_err] at h
        cases h
        exact pyInStrTable_error_shape ht
      · rw [ht, ebind_ok] at h
        simp [pure, Except.pure] at h

theorem getVariantOrigin_error_shape {g : PyVal} {e : AnnotErr}
    (h : getVariantOrigin g = .error e) : ∃ m, e = .typeError m := by
  unfold getVariantOrigin at h
  cases g <;> simp at h <;>
    first
      | exact ⟨_, h.symm⟩
      | (rename_i s
         rcases hf : diseaseAssociations.find? (fun p => p.1 = s) with _ | p <;>
           rw [hf] at h <;> simp at h)

theorem getDrugRecommendations_error_shape {g : PyVal} {e : AnnotErr}
    (h : getDrugRecommendations g = .error e) : ∃ m, e = .typeError m := by
  unfold getDrugRecommendations at h
  cases g <;> simp at h <;>
    first
      | exact ⟨_, h.symm⟩
      | (rename_i s
         rcases hf : drugGeneDb.find? (fun p => p.1 = s) with _ | p <;>
           rw [hf] at h <;> simp at h)

theorem getDiseaseInfo_error_shape {g : PyVal} {e : AnnotErr}
    (h : getDiseaseInfo g = .error e) : ∃ m, e = .typeError m := by
  unfold getDiseaseInfo at h
  cases g <;> simp at h <;>
    first
      | exact ⟨_, h.symm⟩
      | (rename_i s
         rcases hf : diseaseAssociations.find? (fun p => p.1 = s) with _ | p <;>
           rw [hf] at h <;> simp at h)

theorem generatePatientSummary_error_shape {g : PyVal} {p : List (String × PyVal)}
    {e : AnnotErr} (h : generatePatientSummary g p = .error e) : ∃ m, e = .typeError m := by
  unfold generatePatientSummary at h
  rcases hc : dGetD p "classification" (.str "Uncertain") with s | n | q | b | _ | d <;>
    rw [hc] at h <;> simp at h
  exact ⟨_, h.symm⟩

/-- **C6.** The clinical annotator raises its validation error (the `ValueError` listing
the missing required keys) if and only if the prediction is missing the
`classification` key or the `pathogenic_probability` key; on such input it fails before
producing any annotation (the validation precedes all annotation work), and with both
keys present it never raises that validation error — any later failure is a distinct
`TypeError`. -/
theorem annotate_validation_error_iff_missing
    (variant mlPrediction : List (String × PyVal)) (ancestry : String) :
    (∃ ks, annotateVariant variant mlPrediction ancestry = .error (.missingKeys ks)) ↔
      (hasKey mlPrediction "classification" = false ∨
        hasKey mlPrediction "pathogenic_probability" = false) := by
  constructor
  · rintro ⟨ks, hks⟩
    by_contra hnot
    push_neg at hnot
    have hc : hasKey mlPrediction "classification" = true :=
      eq_true_of_ne_false hnot.1
    have hp : hasKey mlPrediction "pathogenic_probability" = true :=
      eq_true_of_ne_false hnot.2
    unfold annotateVariant at hks
    rw [if_neg (by simp [hc, hp])] at hks
    simp only [] at hks
    rcases h1 : getPopulationFrequency (dGet variant "id") ancestry with e1 | popFreq
    · rw [h1, ebind_err] at hks
      cases hks
      obtain ⟨m, hm⟩ := getPopulationFrequency_error_shape h1
      exact absurd hm (by simp)
    · rw [h1, ebind_ok] at hks
      rcases h2 : assessAnnotationConfidence mlPrediction (some popFreq)
          (dGetD variant "gene" (.str "Unknown")) with e2 | conf
      · rw [h2, ebind_err] at hks
        cases hks
        obtain ⟨m, hm⟩ := assessAnnotationConfidence_error_shape h2
        exact absurd hm (by simp)
      · rw [h2, ebind_ok] at hks
        rcases h3 : getVariantOrigin (dGetD variant "gene" (.str "Unknown")) with e3 | origin
        · rw [h3, ebind_err] at hks
          cases hks
          obtain ⟨m, hm⟩ := getVariantOrigin_error_shape h3
          exact absurd hm (by simp)
        · rw [h3, ebind_ok] at hks
          rcases h4 : getDrugRecommendations (dGetD variant "gene" (.str "Unknown"))
            with e4 | pharm
          · rw [h4, ebind_err] at hks
            cases hks
            obtain ⟨m, hm⟩ := getDrugRecommendations_error_shape h4
            exact absurd hm (by simp)
          · rw [h4, ebind_ok] at hks
            rcases h5 : getDiseaseInfo (dGetD variant "gene" (.str "Unknown"))
              with e5 | disease
            · rw [h5, ebind_err] at hks
              cases hks
              obtain ⟨m, hm⟩ := getDiseaseInfo_error_shape h5
              exact absurd hm (by simp)
            · rw [h5, ebind_ok] at hks
              rcases h6 : generatePatientSummary (dGetD variant "gene" (.str "Unknown"))
                  mlPrediction with e6 | impact
              · rw [h6, ebind_err] at hks
                cases hks
                obtain ⟨m, hm⟩ := generatePatientSummary_error_shape h6
                exact absurd hm (by simp)
              · rw [h6, ebind_ok] at hks
                simp [pure, Except.pure] at hks
  · intro h
    refine ⟨["classification", "pathogenic_probability"].filter
      (fun k => ¬ hasKey mlPrediction k), ?_⟩
    unfold annotateVariant
    rw [if_pos]
    rcases h with h | h <;> simp [h]

theorem obind_some (a : α) (f : α → Option β) :
    (some a >>= f) = f a := rfl

/-- **C1 counterexample.** A non-header, non-blank line with exactly 8 tab-separated
fields and a 2-allele ALT on which parsing emits no records at all: its POS field is not
an integer, so `int(fields[1])` raises and the whole parse aborts instead of yielding
2 records. -/
theorem multiallelic_expansion_counterexample :
    parseVariantLine ["chr1", "x", ".", "A", "C,G", "50", "PASS", "AF=0.1"] =
      Option.none ∧
    (pySplit ',' "C,G").length = 2 ∧
    parseVcf ["chr1\tx\t.\tA\tC,G\t50\tPASS\tAF=0.1"] = Option.none ∧
    pyStrip "chr1\tx\t.\tA\tC,G\t50\tPASS\tAF=0.1" ≠ "" ∧
    pyStartsWith '#' "chr1\tx\t.\tA\tC,G\t50\tPASS\tAF=0.1" = false ∧
    (pySplit '\t' "chr1\tx\t.\tA\tC,G\t50\tPASS\tAF=0.1").length = 8 := by
  refine ⟨by decide, by decide, by decide, by decide, by decide, by decide⟩

/-- **C1 (amended).** For every tab-split VCF record with at least 8 fields whose POS
parses as an integer, whose gene/consequence resolution succeeds and whose INFO `AF`
value parses as a float, `_parse_variant_line` emits exactly one record per
comma-separated ALT allele; the records share chromosome, position, reference, quality,
filter status, info (and every other field) and differ only in the alternate allele and
the id `chrom:pos:ref>alt`. -/
theorem multiallelic_expansion (fields : List String) (h8 : 8 ≤ fields.length)
    (pos : Int) (g c : InfoVal) (af : ℚ)
    (hpos : parsePyInt (fields.getD 1 "") = some pos)
    (hg : resolveField (parseInfoField (fields.getD 7 "")) "GENE" = some g)
    (hc : resolveField (parseInfoField (fields.getD 7 "")) "CONSEQUENCE" = some c)
    (haf : infoFloat (dGetD (parseInfoField (fields.getD 7 "")) "AF" (.str "0.0")) =
      some af) :
    ∃ recs, parseVariantLine fields = some recs ∧
      recs.length = (pySplit ',' (fields.getD 4 "")).length ∧
      recs.map (fun r => r.alternate) = pySplit ',' (fields.getD 4 "") ∧
      ∀ r ∈ recs,
        r.chromosome = fields.getD 0 "" ∧
        r.position = pos ∧
        r.reference = fields.getD 3 "" ∧
        r.quality = fields.getD 5 "" ∧
        r.filter = fields.getD 6 "" ∧
        r.gene = g ∧
        r.consequence = c ∧
        r.cohort_allele_frequency = af ∧
        r.depth = dGet (parseInfoField (fields.getD 7 "")) "DP" ∧
        r.zygosity = dGetD (parseInfoField (fields.getD 7 "")) "GT" (.str "Unknown") ∧
        r.info = parseInfoField (fields.getD 7 "") ∧
        r.id = fields.getD 0 "" ++ ":" ++ toString pos ++ ":" ++ fields.getD 3 "" ++ ">" ++
          r.alternate := by
  unfold parseVariantLine
  simp only [] at *
  rw [hpos, obind_some, hg, obind_some, hc, obind_some, haf, obind_some]
  refine ⟨_, rfl, by simp, by simp [Function.comp_def], ?_⟩
  intro r hr
  rcases List.mem_map.mp hr with ⟨alt, halt, rfl⟩
  exact ⟨rfl, rfl, rfl, rfl, rfl, rfl, rfl, rfl, rfl, rfl, rfl, rfl⟩

/-- Witness for the amended C1: a concrete 8-field record with two ALT alleles yields
exactly two records. -/
theorem multiallelic_expansion_witness :
    (parseVariantLine ["chr1", "100", ".", "A", "C,T", "50", "PASS", "AF=0.1"]).map
      List.length = some 2 := by
  obtain ⟨recs, hp, hlen, -, -⟩ :=
    multiallelic_expansion ["chr1", "100", ".", "A", "C,T", "50", "PASS", "AF=0.1"]
      (by decide) 100 (.str "Unknown") (.str "Unknown") (dec 1 1)
      (by decide) (by decide) (by decide) (by decide)
  rw [hp]
  simp [hlen]
  decide

/-- **C5 counterexample.** A non-header line with exactly 8 tab-separated fields (the
claim's valid shape) on which parsing throws rather than skipping or continuing: its
INFO `AF` value is not float-parseable, so `float(info_dict.get('AF', '0.0'))` raises
and no list of variants is returned. -/
theorem parse_throws_on_valid_shape :
    (pySplit '\t' "chr1\t100\t.\tA\tC\t50\tPASS\tAF=abc").length = 8 ∧
    pyStrip "chr1\t100\t.\tA\tC\t50\tPASS\tAF=abc" ≠ "" ∧
    pyStartsWith '#' "chr1\t100\t.\tA\tC\t50\tPASS\tAF=abc" = false ∧
    parseVcf ["chr1\t100\t.\tA\tC\t50\tPASS\tAF=abc"] = Option.none := by
  refine ⟨by decide, by decide, by decide, by decide⟩

/-- **C5 (amended).** Parsing skips every blank line, `#` line and line with fewer than
8 tab-separated fields and continues with the remaining lines unchanged; it is only on
a ≥ 8-field line with an unparseable POS/AF token or a bare-flag CSQ/ANN annotation
that parsing raises (see the counterexample) — skipped lines never affect the rest. -/
theorem parse_skips_malformed (pre suf : List String) (line : String)
    (h : pyStrip line = "" ∨ pyStartsWith '#' (pyStrip line) = true ∨
      (pySplit '\t' (pyStrip line)).length < 8) :
    parseVcf (pre ++ line :: suf) = parseVcf (pre ++ suf) := by
  induction pre with
  | nil =>
      simp only [List.nil_append]
      show (let l := pyStrip line
        if l = "" ∨ pyStartsWith '#' l then parseVcf suf
        else
          let fields := pySplit '\t' l
          if fields.length < 8 then parseVcf suf
          else do
            let parsed ← parseVariantLine fields
            let others ← parseVcf suf
            pure (parsed ++ others)) = parseVcf suf
      simp only []
      rcases h with h | h | h
      · rw [if_pos (Or.inl h)]
      · rw [if_pos (Or.inr h)]
      · by_cases hb : pyStrip line = "" ∨ pyStartsWith '#' (pyStrip line)
        · rw [if_pos hb]
        · rw [if_neg hb, if_pos h]
  | cons p ps ih =>
      simp only [List.cons_append]
      show (let l := pyStrip p
        if l = "" ∨ pyStartsWith '#' l then parseVcf (ps ++ line :: suf)
        else
          let fields := pySplit '\t' l
          if fields.length < 8 then parseVcf (ps ++ line :: suf)
          else do
            let parsed ← parseVariantLine fields
            let others ← parseVcf (ps ++ line :: suf)
            pure (parsed ++ others)) =
        (let l := pyStrip p
          if l = "" ∨ pyStartsWith '#' l then parseVcf (ps ++ suf)
          else
            let fields := pySplit '\t' l
            if fields.length < 8 then parseVcf (ps ++ suf)
            else do
              let parsed ← parseVariantLine fields
              let others ← parseVcf (ps ++ suf)
              pure (parsed ++ others))
      simp only []
      split_ifs
      · exact ih
      · exact ih
      · rw [ih]

/-- Witness for the amended C5: a header line and a short line are skipped around a
well-formed record line. -/
theorem parse_skips_malformed_witness :
    parseVcf ["#CHROM\tPOS", "chr1\t100\t.\tA\tC\t50\tPASS\tAF=0.1"] =
      parseVcf ["chr1\t100\t.\tA\tC\t50\tPASS\tAF=0.1"] :=
  parse_skips_malformed [] ["chr1\t100\t.\tA\tC\t50\tPASS\tAF=0.1"] "#CHROM\tPOS"
    (by decide)

/-- **C9 counterexample.** A list of parser-produced records on which filtering returns
no list at all: the record parsed from QUAL `abc` is neither kept nor dropped —
`float('abc')` raises inside `filter_variants`, so even records satisfying the keeping
condition are lost. -/
theorem filter_throws_on_unparseable_quality :
    ((parseVcf ["chr1\t100\t.\tA\tC\tabc\tPASS\tAF=0.1"]).map
      (filterVariants 20 (dec 5 1) true)) = some Option.none := by
  decide

/-- **C9 (amended).** Provided every record's quality is `'.'` or float-parseable (as
the data model's optional-numeric quality requires), filtering keeps a record if and
only if its quality is present and at least `minQuality`, its filter status is `PASS` or
`'.'` when `passOnly` is set, and its cohort allele frequency does not exceed
`maxCohortAF`; the kept records appear in their original order (the result is exactly
`List.filter` of the keeping condition).  A non-`'.'` unparseable quality instead aborts
the whole call. -/
theorem filter_keeps_iff (minQuality maxCohortAF : ℚ) (passOnly : Bool) :
    ∀ vs : List VariantRecord,
      (∀ r ∈ vs, r.quality = "." ∨ (parsePyFloat r.quality).isSome = true) →
      filterVariants minQuality maxCohortAF passOnly vs =
        some (vs.filter (keeps minQuality maxCohortAF passOnly))
  | [], _ => rfl
  | v :: vs, h => by
      have hv := h v (List.mem_cons_self v vs)
      have ih := filter_keeps_iff minQuality maxCohortAF passOnly vs
        (fun r hr => h r (List.mem_cons_of_mem v hr))
      unfold filterVariants
      by_cases hq : v.quality = "."
      · rw [if_pos hq, ih]
        simp [List.filter_cons, keeps, hq]
      · rw [if_neg hq]
        rcases hv with hv | hv
        · exact absurd hv hq
        obtain ⟨q, hpq⟩ := Option.isSome_iff_exists.mp hv
        simp only [hpq]
        by_cases h1 : q < minQuality
        · rw [if_pos h1, ih]
          simp [List.filter_cons, keeps, hq, hpq, not_le.mpr h1]
        · rw [if_neg h1]
          by_cases h2 : passOnly ∧ ¬(v.filter = "PASS" ∨ v.filter = ".")
          · rw [if_pos h2, ih]
            have hfilt : (!passOnly || (v.filter == "PASS" || v.filter == ".")) = false := by
              simp [h2.1]
              exact not_or.mp h2.2
            simp [List.filter_cons, keeps, hfilt]
          · rw [if_neg h2]
            by_cases h3 : v.cohort_allele_frequency > maxCohortAF
            · rw [if_pos h3, ih]
              simp [List.filter_cons, keeps, not_le.mpr h3]
            · rw [if_neg h3, ih]
              have hkeep : keeps minQuality maxCohortAF passOnly v = true := by
                unfold keeps
                rw [hpq]
                simp [hq, not_lt.mp h1, not_lt.mp h3]
                rcases not_and_or.mp h2 with hnp | hnf
                · exact Or.inl (eq_false_of_ne_true hnp)
                · exact Or.inr (not_not.mp hnf)
              simp [List.filter_cons, hkeep]

/-- Witness for the amended C9: a kept record and two dropped ones (low quality, FILTER
failure) on concrete inputs, emitted in original order. -/
theorem filter_keeps_iff_witness :
    filterVariants 20 (dec 5 1) true
        [⟨"chr1:100:A>C", "chr1", 100, "A", "C", "50", "PASS", .str "G1", .str "c1",
            dec 1 1, Option.none, .str "Unknown", []⟩,
         ⟨"chr1:101:A>C", "chr1", 101, "A", "C", "10", "PASS", .str "G1", .str "c1",
            dec 1 1, Option.none, .str "Unknown", []⟩,
         ⟨"chr1:102:A>C", "chr1", 102, "A", "C", "50", "q10", .str "G1", .str "c1",
            dec 1 1, Option.none, .str "Unknown", []⟩] =
      some [⟨"chr1:100:A>C", "chr1", 100, "A", "C", "50", "PASS", .str "G1", .str "c1",
            dec 1 1, Option.none, .str "Unknown", []⟩] := by
  have h := filter_keeps_iff 20 (dec 5 1) true
    [⟨"chr1:100:A>C", "chr1", 100, "A", "C", "50", "PASS", .str "G1", .str "c1",
        dec 1 1, Option.none, .str "Unknown", []⟩,
     ⟨"chr1:101:A>C", "chr1", 101, "A", "C", "10", "PASS", .str "G1", .str "c1",
        dec 1 1, Option.none, .str "Unknown", []⟩,
     ⟨"chr1:102:A>C", "chr1", 102, "A", "C", "50", "q10", .str "G1", .str "c1",
        dec 1 1, Option.none, .str "Unknown", []⟩] (by decide)
  rw [h]
  decide

/-- **C10.** For lists of annotations whose prediction fields are well-typed (string
classification, rational probability, as the data model requires): the report succeeds;
`genetic_counseling_indicated` is true iff some annotation is classified Pathogenic or
Likely Pathogenic; the priority variants are exactly those annotations, sorted
descending by pathogenic probability (a stable sort: a permutation, pairwise
non-increasing, equal keys kept in original input order) and truncated to the top 5;
and the empty list yields all-zero classification counts and a false counseling flag. -/
theorem report_top5_and_counseling (annotations : List ClinicalAnnot)
    (hcls : ∀ a ∈ annotations,
      ∃ s, dGet a.ml_classification "classification" = some (.str s))
    (hprob : ∀ a ∈ annotations,
      ∃ q : ℚ, dGet a.ml_classification "pathogenic_probability" = some (.rat q)) :
    ∃ r, generateClinicalReport annotations = .ok r ∧
      (r.genetic_counseling_indicated = true ↔
        ∃ a ∈ annotations, actionableB a = true) ∧
      r.priority_variants = (sortDesc pathProbOf (annotations.filter actionableB)).take 5 ∧
      (sortDesc pathProbOf (annotations.filter actionableB)).Perm
        (annotations.filter actionableB) ∧
      (sortDesc pathProbOf (annotations.filter actionableB)).Pairwise
        (fun a b => pathProbOf b ≤ pathProbOf a) ∧
      (∀ q : ℚ,
        (sortDesc pathProbOf (annotations.filter actionableB)).filter
            (fun a => pathProbOf a = q) =
          (annotations.filter actionableB).filter (fun a => pathProbOf a = q)) ∧
      (annotations = [] → r.summary = ⟨0, 0, 0, 0⟩ ∧
        r.genetic_counseling_indicated = false) := by
  have hact : filterE isActionable annotations = .ok (annotations.filter actionableB) := by
    apply filterE_ok
    intro a ha
    obtain ⟨s, hs⟩ := hcls a ha
    unfold isActionable actionableB
    simp only [getItem, hs, ebind_ok]
    show Except.ok _ = Except.ok _
    congr 1
    rw [decide_eq_decide]
    simp
  have hcount : ∀ pat : String,
      filterE (classificationContains pat) annotations =
        .ok (annotations.filter (fun a => strContains (clsStrOf a) pat)) := by
    intro pat
    apply filterE_ok
    intro a ha
    obtain ⟨s, hs⟩ := hcls a ha
    unfold classificationContains clsStrOf
    simp only [getItem, hs, ebind_ok]
    rfl
  have hkeyed : mapE probKeyed (annotations.filter actionableB) =
      .ok ((annotations.filter actionableB).map (fun a => (a, pathProbOf a))) := by
    apply mapE_ok
    intro a ha
    obtain ⟨q, hq⟩ := hprob a (List.mem_of_mem_filter ha)
    unfold probKeyed pathProbOf
    simp only [getItem, hq, ebind_ok, pyFloat]
    rfl
  unfold generateClinicalReport
  rw [hact, ebind_ok]
  simp only []
  rw [hcount "Pathogenic", ebind_ok, hcount "Uncertain", ebind_ok, hcount "Benign",
    ebind_ok, hkeyed, ebind_ok]
  refine ⟨_, rfl, ?_, ?_, sortDesc_perm _ _, sortDesc_sorted _ _,
    fun q => sortDesc_stable _ _ q, ?_⟩
  · show (!(annotations.filter actionableB).isEmpty) = true ↔ _
    rw [Bool.not_eq_true', List.isEmpty_eq_false_iff_exists_mem]
    constructor
    · rintro ⟨a, ha⟩
      exact ⟨a, List.mem_of_mem_filter ha, List.of_mem_filter ha⟩
    · rintro ⟨a, ha, hab⟩
      exact ⟨a, List.mem_filter.mpr ⟨ha, hab⟩⟩
  · show ((sortDesc Prod.snd ((annotations.filter actionableB).map
        (fun a => (a, pathProbOf a)))).map Prod.fst).take 5 = _
    rw [sortDesc_map_pair]
    simp [List.map_map, Function.comp_def]
  · rintro rfl
    exact ⟨rfl, rfl⟩

/-- Witness for C10: two actionable annotations are reported in descending probability
order with the counseling flag set. -/
theorem report_top5_and_counseling_witness :
    ∃ r, generateClinicalReport
        [sampleAnnot "Likely Pathogenic" (dec 8 1),
         sampleAnnot "Pathogenic" (dec 9 1)] = .ok r ∧
      r.genetic_counseling_indicated = true ∧
      r.priority_variants =
        [sampleAnnot "Pathogenic" (dec 9 1),
         sampleAnnot "Likely Pathogenic" (dec 8 1)] := by
  obtain ⟨r, hr, hflag, hprio, -, -, -, -⟩ :=
    report_top5_and_counseling
      [sampleAnnot "Likely Pathogenic" (dec 8 1),
       sampleAnnot "Pathogenic" (dec 9 1)]
      (by
        intro a ha
        rcases List.mem_cons.mp ha with rfl | ha'
        · exact ⟨"Likely Pathogenic", rfl⟩
        · rcases List.mem_cons.mp ha' with rfl | h'
          · exact ⟨"Pathogenic", rfl⟩
          · cases h')
      (by
        intro a ha
        rcases List.mem_cons.mp ha with rfl | ha'
        · exact ⟨dec 8 1, rfl⟩
        · rcases List.mem_cons.mp ha' with rfl | h'
          · exact ⟨dec 9 1, rfl⟩
          · cases h')
  refine ⟨r, hr, ?_, ?_⟩
  · exact hflag.mpr ⟨sampleAnnot "Pathogenic" (dec 9 1), by simp, by decide⟩
  · rw [hprio]
    decide

end GenoInsight
